import Mathlib

/-!
Verification development for the browser-automation demo repository
(`main.py`, `src/config/app_config.py`, `src/common/logging_config.py`,
`src/scripts/chrome_automation.py`, `src/scripts/browser_automation_task.py`).

The Python code is shallowly embedded: pure helpers become Lean functions,
the stateful task sequencer becomes explicit state passing in a small
state-plus-exception monad, and the behaviour of the external world
(listening sockets, the Playwright library, the filesystem, the clock) is
supplied through explicit environment records.  Machine integers do not
occur; all arithmetic in the sources is exact.

A modelling note used throughout: in `BrowserAutomationTask` the attribute
`log_message` is declared as `pyqtSignal(str)`.  A PyQt bound signal's
`emit` is a C-level function registered with `METH_VARARGS`, so calling it
with a keyword argument, as `self.log_message.emit(msg, level="warning")`
does in several handlers of `browser_automation_task.py`, raises
`TypeError` before anything is emitted (and the signal carries a single
`str` parameter, so the extra argument would be rejected in any case).
Those call sites are embedded as a throwing operation `emitLogKw`.
Log-message texts are modelled by short English placeholder strings; only
their presence and non-emptiness matter to any statement below.
-/

/-! ## JSON values and the configuration merge (`app_config.py`) -/

/-- JSON-like values, as produced by `json.load` in `app_config.py`.
Objects are insertion-ordered association lists, matching Python dicts. -/
inductive Json where
  | null : Json
  | bool : Bool → Json
  | num : Int → Json
  | str : String → Json
  | arr : List Json → Json
  | obj : List (String × Json) → Json

/-- First-match lookup in an insertion-ordered dict, `d[k]` / `k in d`. -/
def pyLookup (k : String) : List (String × Json) → Option Json
  | [] => none
  | (k2, v) :: rest => if k = k2 then some v else pyLookup k rest

/-- Python dict assignment `d[k] = v`: replace the value in place if the
key is present, otherwise append the new binding at the end. -/
def pyDictUpdate : List (String × Json) → String → Json → List (String × Json)
  | [], k, v => [(k, v)]
  | (k2, v2) :: rest, k, v =>
      if k = k2 then (k2, v) :: rest else (k2, v2) :: pyDictUpdate rest k v

/-- Keys of a dict, in insertion order. -/
def pyKeys (d : List (String × Json)) : List String := d.map Prod.fst

/-- The inner `merge_dict` of `AppConfig._merge_config`: for each binding
of the user dict, recursively merge when both sides hold dicts, otherwise
overwrite (or add) the binding.  The Python function mutates `d1` and
returns it; the embedding returns the resulting value. -/
def merge_dict : List (String × Json) → List (String × Json) → List (String × Json)
  | d1, [] => d1
  | d1, (k, v) :: rest =>
      match v with
      | Json.obj s2 =>
        match pyLookup k d1 with
        | some (Json.obj s1) => merge_dict (pyDictUpdate d1 k (Json.obj (merge_dict s1 s2))) rest
        | _ => merge_dict (pyDictUpdate d1 k v) rest
      | _ => merge_dict (pyDictUpdate d1 k v) rest
termination_by d1 d2 => sizeOf d2
decreasing_by
  all_goals simp_wf
  all_goals omega

/-- `AppConfig._merge_config(default, user)`: shallow-copies the default
dict and runs `merge_dict` over it (the copy is invisible under value
semantics). -/
def _merge_config (default user : List (String × Json)) : List (String × Json) :=
  merge_dict default user

theorem pyLookup_pyDictUpdate_self (d : List (String × Json)) (k : String) (v : Json) :
    pyLookup k (pyDictUpdate d k v) = some v := by
  induction d with
  | nil => simp [pyDictUpdate, pyLookup]
  | cons p rest ih =>
      obtain ⟨k2, v2⟩ := p
      by_cases h : k = k2
      · subst h
        simp [pyDictUpdate, pyLookup]
      · simp [pyDictUpdate, pyLookup, h, ih]

theorem pyLookup_pyDictUpdate_other (d : List (String × Json)) (k q : String) (v : Json)
    (hqk : q ≠ k) : pyLookup q (pyDictUpdate d k v) = pyLookup q d := by
  induction d with
  | nil => simp [pyDictUpdate, pyLookup, hqk]
  | cons p rest ih =>
      obtain ⟨k2, v2⟩ := p
      by_cases h : k = k2
      · subst h
        simp [pyDictUpdate, pyLookup, hqk]
      · by_cases h2 : q = k2
        · subst h2
          simp [pyDictUpdate, pyLookup, h]
        · simp [pyDictUpdate, pyLookup, h, h2, ih]

theorem pyLookup_eq_none_of_not_mem_keys (d : List (String × Json)) (k : String)
    (h : k ∉ pyKeys d) : pyLookup k d = none := by
  induction d with
  | nil => rfl
  | cons p rest ih =>
      obtain ⟨k2, v2⟩ := p
      simp only [pyKeys, List.map_cons, List.mem_cons] at h
      push_neg at h
      simp [pyLookup, h.1, ih (by simpa [pyKeys] using h.2)]

/-- The value assigned for key `k` by one iteration of `merge_dict`:
the recursive merge when both sides hold dicts, the user value otherwise. -/
def mergeStepVal (d1 : List (String × Json)) (k : String) (v : Json) : Json :=
  match pyLookup k d1, v with
  | some (Json.obj s1), Json.obj s2 => Json.obj (merge_dict s1 s2)
  | _, _ => v

theorem merge_dict_cons (d1 : List (String × Json)) (k : String) (v : Json)
    (rest : List (String × Json)) :
    merge_dict d1 ((k, v) :: rest) =
      merge_dict (pyDictUpdate d1 k (mergeStepVal d1 k v)) rest := by
  cases hl : pyLookup k d1 with
  | none => cases v <;> simp [merge_dict, mergeStepVal, hl]
  | some j => cases j <;> cases v <;> simp [merge_dict, mergeStepVal, hl]

/-- Characterisation of a single lookup in the merged dict (the Python
user dict has pairwise-distinct keys). -/
theorem pyLookup_merge_dict (d2 : List (String × Json)) :
    ∀ (d1 : List (String × Json)) (q : String), (pyKeys d2).Nodup →
      pyLookup q (merge_dict d1 d2) =
        match pyLookup q d1, pyLookup q d2 with
        | some (Json.obj a), some (Json.obj b) => some (Json.obj (merge_dict a b))
        | _, some v => some v
        | o, none => o := by
  induction d2 with
  | nil =>
      intro d1 q _
      cases h : pyLookup q d1 with
      | none => simp [merge_dict, pyLookup, h]
      | some j => cases j <;> simp [merge_dict, pyLookup, h]
  | cons p rest ih =>
      intro d1 q hnd
      obtain ⟨k, v⟩ := p
      simp only [pyKeys, List.map_cons, List.nodup_cons] at hnd
      obtain ⟨hk, hrest⟩ := hnd
      rw [merge_dict_cons, ih _ q hrest]
      by_cases hq : q = k
      · subst hq
        have hrn : pyLookup q rest = none :=
          pyLookup_eq_none_of_not_mem_keys rest q (by simpa [pyKeys] using hk)
        rw [hrn, pyLookup_pyDictUpdate_self]
        cases hl : pyLookup q d1 with
        | none => cases v <;> simp [mergeStepVal, pyLookup, hl]
        | some j => cases j <;> cases v <;> simp [mergeStepVal, pyLookup, hl]
      · rw [pyLookup_pyDictUpdate_other d1 k q _ hq]
        simp [pyLookup, hq]

/-! ## File-size parsing (`logging_config._parse_file_size`)

Python strings are sequences of code points, embedded here as `List Char`
(`String.data`); the string primitives used by `_parse_file_size` are
spelled out below so that concrete runs evaluate. -/

/-- Whitespace as removed by Python `str.strip()` (the characters that
actually occur in any statement below are plain spaces). -/
def pyIsSpace (c : Char) : Bool :=
  c == ' ' || c == '\t' || c == '\n' || c == '\r'

/-- Drop leading whitespace. -/
def pyStripLeft : List Char → List Char
  | [] => []
  | c :: rest => if pyIsSpace c then pyStripLeft rest else c :: rest

/-- Python `str.strip()`: drop whitespace at both ends. -/
def pyStrip (s : List Char) : List Char :=
  (pyStripLeft (pyStripLeft s.reverse).reverse)

/-- Python `str.upper()` (ASCII, which covers every letter the parser
compares against). -/
def pyUpper (s : List Char) : List Char := s.map Char.toUpper

/-- Python `str.endswith(suffix)`. -/
def pyEndsWith (s suffix : List Char) : Bool :=
  s.drop (s.length - suffix.length) == suffix

/-- Python `float` restricted to decimal-natural literals, composed with
the truncating `int(...)`: on the numeric prefixes appearing in every
statement below (`"10"`, `"1"`, `"512"`, `"1024"`), `int(float(p))` is
exactly this value, and on a non-numeric prefix `float` raises
`ValueError`, which the parser turns into `none` here.  Fractional or
exponent literals accepted by `float` are outside every statement proved
about the parser. -/
def pyFloatNat? (s : List Char) : Option Nat :=
  if s ≠ [] ∧ s.all Char.isDigit then
    some (s.foldl (fun a c => a * 10 + (c.toNat - 48)) 0)
  else none

/-- One iteration of the suffix loop in `_parse_file_size`: when the
string ends with the suffix, try to parse the prefix
`size_str[:-len(suffix)]` as a number and scale it; a parse failure
(Python `ValueError`) falls through to the next suffix, as does a failed
`endswith` test. -/
def parse_size_step (s suffix : List Char) (mult : Nat) : Option Nat :=
  if pyEndsWith s suffix then
    match pyFloatNat? (s.take (s.length - suffix.length)) with
    | some n => some (n * mult)
    | none => none
  else none

/-- `logging_config._parse_file_size`: upper-case and strip the input,
then try the suffixes in dict insertion order `B`, `KB`, `MB`, `GB`; if
no suffix applies, return the documented default of 10 MiB. -/
def _parse_file_size (sizeStr : String) : Nat :=
  let s := pyStrip (pyUpper sizeStr.data)
  match parse_size_step s ['B'] 1 with
  | some n => n
  | none =>
    match parse_size_step s ['K', 'B'] 1024 with
    | some n => n
    | none =>
      match parse_size_step s ['M', 'B'] (1024 * 1024) with
      | some n => n
      | none =>
        match parse_size_step s ['G', 'B'] (1024 * 1024 * 1024) with
        | some n => n
        | none => 10 * 1024 * 1024

/-! ## Port detection (`BrowserAutomationTask.detect_chrome_instances`) -/

/-- One entry of `psutil.net_connections()`: its status string and the
local-address port. -/
structure Conn where
  status : String
  port : Nat
deriving DecidableEq

/-- The socket-scanning part of `detect_chrome_instances`: collect local
ports of `LISTEN` connections lying in the inclusive range 9222–9232,
deduplicate and sort ascending (`sorted(list(set(...)))`), and fall back
to the single default port 9222 when none was found. -/
def detect_chrome_instances_pure (conns : List Conn) : List Nat :=
  let chrome_ports :=
    (conns.filter fun c =>
      c.status == "LISTEN" && decide (9222 ≤ c.port) && decide (c.port ≤ 9232)).map Conn.port
  let sorted := List.insertionSort (· ≤ ·) chrome_ports.dedup
  if sorted.isEmpty then [9222] else sorted

/-! ## Claim theorems for the pure helpers -/

/-- C8: the configuration merge is a recursive deep merge in which
user-supplied values override defaults and sibling default keys are
preserved (stated as a full characterisation of lookups in the merged
dict, for user dicts with distinct keys as produced by `json.load`), and
merging the defaults `a: (x:1, y:2)` with the user override
`a: (y:9, z:3)` yields exactly `a: (x:1, y:9, z:3)`. -/
theorem merge_config_deep_merge (d u : List (String × Json)) (q : String)
    (hu : (pyKeys u).Nodup) :
    (pyLookup q (_merge_config d u) =
      match pyLookup q d, pyLookup q u with
      | some (Json.obj a), some (Json.obj b) => some (Json.obj (merge_dict a b))
      | _, some v => some v
      | o, none => o)
    ∧ _merge_config [("a", Json.obj [("x", Json.num 1), ("y", Json.num 2)])]
        [("a", Json.obj [("y", Json.num 9), ("z", Json.num 3)])] =
      [("a", Json.obj [("x", Json.num 1), ("y", Json.num 9), ("z", Json.num 3)])] := by
  constructor
  · exact pyLookup_merge_dict u d q hu
  · simp [_merge_config, merge_dict, mergeStepVal, pyLookup, pyDictUpdate]

/-- Witness for `merge_config_deep_merge`: instantiated at the claim's own
example, with the key-distinctness hypothesis discharged concretely. -/
theorem merge_config_deep_merge_witness :
    (pyKeys [("a", Json.obj [("y", Json.num 9), ("z", Json.num 3)])]).Nodup
    ∧ pyLookup "a"
        (_merge_config [("a", Json.obj [("x", Json.num 1), ("y", Json.num 2)])]
          [("a", Json.obj [("y", Json.num 9), ("z", Json.num 3)])]) =
      some (Json.obj [("x", Json.num 1), ("y", Json.num 9), ("z", Json.num 3)]) := by
  refine ⟨by simp [pyKeys], ?_⟩
  have h := merge_config_deep_merge
    [("a", Json.obj [("x", Json.num 1), ("y", Json.num 2)])]
    [("a", Json.obj [("y", Json.num 9), ("z", Json.num 3)])] "a" (by simp [pyKeys])
  rw [h.2]
  simp [pyLookup]

/-- C9: the file-size parser maps `10MB`, `1GB`, `512KB`, `1024B` to
10485760, 1073741824, 524288 and 1024 exactly, and every input whose
upper-cased, stripped form ends in none of the recognised suffixes
`B`, `KB`, `MB`, `GB` yields the documented default 10485760. -/
theorem parse_file_size_spec (s : String)
    (h1 : pyEndsWith (pyStrip (pyUpper s.data)) ['B'] = false)
    (h2 : pyEndsWith (pyStrip (pyUpper s.data)) ['K', 'B'] = false)
    (h3 : pyEndsWith (pyStrip (pyUpper s.data)) ['M', 'B'] = false)
    (h4 : pyEndsWith (pyStrip (pyUpper s.data)) ['G', 'B'] = false) :
    _parse_file_size "10MB" = 10485760
    ∧ _parse_file_size "1GB" = 1073741824
    ∧ _parse_file_size "512KB" = 524288
    ∧ _parse_file_size "1024B" = 1024
    ∧ _parse_file_size s = 10485760 := by
  refine ⟨rfl, rfl, rfl, rfl, ?_⟩
  simp only [_parse_file_size, parse_size_step, h1, h2, h3, h4, Bool.false_eq_true, if_false]

/-- Witness for `parse_file_size_spec` at the concrete input `"7XY"`,
whose suffix is unrecognised. -/
theorem parse_file_size_spec_witness :
    pyEndsWith (pyStrip (pyUpper "7XY".data)) ['B'] = false
    ∧ _parse_file_size "7XY" = 10485760 :=
  ⟨by decide, (parse_file_size_spec "7XY" (by decide) (by decide) (by decide) (by decide)).2.2.2.2⟩

/-- Listening debug port predicate used by `detect_chrome_instances`. -/
def listeningInRange (c : Conn) : Prop :=
  c.status = "LISTEN" ∧ 9222 ≤ c.port ∧ c.port ≤ 9232

instance (c : Conn) : Decidable (listeningInRange c) := by
  unfold listeningInRange
  infer_instance

/-- C7: port detection returns the listening ports in the inclusive range
9222–9232 deduplicated and sorted ascending; when no listening socket
falls in the range it returns exactly `[9222]`; for listening sockets at
9222 and 9223 (with a duplicate and out-of-range noise) it returns
exactly `[9222, 9223]`. -/
theorem detect_chrome_instances_spec (conns : List Conn) :
    (detect_chrome_instances_pure conns).Sorted (· < ·)
    ∧ ((∀ c ∈ conns, ¬listeningInRange c) → detect_chrome_instances_pure conns = [9222])
    ∧ ((∃ c ∈ conns, listeningInRange c) →
        ∀ p, p ∈ detect_chrome_instances_pure conns ↔
          ∃ c ∈ conns, c.status = "LISTEN" ∧ c.port = p ∧ 9222 ≤ p ∧ p ≤ 9232)
    ∧ detect_chrome_instances_pure
        [⟨"LISTEN", 9222⟩, ⟨"LISTEN", 9223⟩, ⟨"LISTEN", 9222⟩, ⟨"ESTABLISHED", 9230⟩,
          ⟨"LISTEN", 80⟩] = [9222, 9223]
    ∧ detect_chrome_instances_pure [⟨"ESTABLISHED", 9222⟩, ⟨"LISTEN", 9300⟩] = [9222] := by
  have hfil : ∀ c : Conn,
      (c.status == "LISTEN" && decide (9222 ≤ c.port) && decide (c.port ≤ 9232)) = true ↔
        listeningInRange c := by
    intro c
    simp [listeningInRange, Bool.and_eq_true, and_assoc]
  refine ⟨?_, ?_, ?_, by rfl, by rfl⟩
  · dsimp only [detect_chrome_instances_pure]
    split
    · exact List.sorted_singleton 9222
    · exact (List.sorted_insertionSort (· ≤ ·) _).lt_of_le
        ((List.perm_insertionSort (· ≤ ·) _).nodup_iff.mpr (List.nodup_dedup _))
  · intro hnone
    unfold detect_chrome_instances_pure
    have : (conns.filter fun c =>
        c.status == "LISTEN" && decide (9222 ≤ c.port) && decide (c.port ≤ 9232)) = [] := by
      rw [List.filter_eq_nil_iff]
      intro c hc
      simpa [hfil c] using hnone c hc
    simp [this]
  · intro hex p
    obtain ⟨c0, hc0, hl0⟩ := hex
    unfold detect_chrome_instances_pure
    have hmem0 : c0.port ∈ (conns.filter fun c =>
        c.status == "LISTEN" && decide (9222 ≤ c.port) && decide (c.port ≤ 9232)).map Conn.port :=
      List.mem_map_of_mem _ (List.mem_filter.mpr ⟨hc0, (hfil c0).mpr hl0⟩)
    have hne : ¬(List.insertionSort (· ≤ ·)
        ((conns.filter fun c =>
          c.status == "LISTEN" && decide (9222 ≤ c.port) && decide (c.port ≤ 9232)).map
            Conn.port).dedup).isEmpty = true := by
      rw [List.isEmpty_iff]
      intro hnil
      have : c0.port ∈ (List.insertionSort (· ≤ ·)
          ((conns.filter fun c =>
            c.status == "LISTEN" && decide (9222 ≤ c.port) && decide (c.port ≤ 9232)).map
              Conn.port).dedup) := by
        rw [List.mem_insertionSort, List.mem_dedup]
        exact hmem0
      rw [hnil] at this
      exact absurd this (List.not_mem_nil _)
    rw [if_neg hne]
    rw [List.mem_insertionSort, List.mem_dedup, List.mem_map]
    constructor
    · rintro ⟨c, hcf, hcp⟩
      have := List.mem_filter.mp hcf
      obtain ⟨hcmem, hcpred⟩ := this
      obtain ⟨hs, h1, h2⟩ := (hfil c).mp hcpred
      exact ⟨c, hcmem, hs, hcp, hcp ▸ h1, hcp ▸ h2⟩
    · rintro ⟨c, hcmem, hs, hcp, h1, h2⟩
      exact ⟨c, List.mem_filter.mpr ⟨hcmem, (hfil c).mpr ⟨hs, hcp ▸ h1, hcp ▸ h2⟩⟩, hcp⟩

/-- Witness for `detect_chrome_instances_spec`: a connection list with no
listening socket in range on one side, and one with sockets at 9222/9223
on the other. -/
theorem detect_chrome_instances_spec_witness :
    detect_chrome_instances_pure [⟨"ESTABLISHED", 9222⟩, ⟨"LISTEN", 9300⟩] = [9222]
    ∧ (9223 ∈ detect_chrome_instances_pure [⟨"LISTEN", 9223⟩, ⟨"LISTEN", 9222⟩] ↔
        ∃ c ∈ ([⟨"LISTEN", 9223⟩, ⟨"LISTEN", 9222⟩] : List Conn),
          c.status = "LISTEN" ∧ c.port = 9223 ∧ 9222 ≤ 9223 ∧ 9223 ≤ 9232) := by
  constructor
  · exact (detect_chrome_instances_spec []).2.2.2.2
  · exact (detect_chrome_instances_spec [⟨"LISTEN", 9223⟩, ⟨"LISTEN", 9222⟩]).2.2.1
      ⟨⟨"LISTEN", 9223⟩, by simp, by decide⟩ 9223

/-! ## The automation driver (`chrome_automation.py`)

Every driver operation except `connect_to_chrome`/`close` wraps its body
in a guard on the session handles followed by a catch-all
`except ... return <default>`; the operations therefore always return
normally and are embedded as total functions.  The behaviour of the
underlying Playwright calls is supplied by a `PageEnv` record whose
`...Raises` fields say which library call would throw. -/

/-- The session handles of a `ChromeAutomation` object; `true` means the
corresponding Python attribute is non-`None`. -/
structure ChromeAutomation where
  playwright : Bool
  browser : Bool
  context : Bool
  page : Bool
  is_connected : Bool
deriving DecidableEq, Fintype

/-- The state set by `ChromeAutomation.__init__`: every handle `None`,
not connected. -/
def ChromeAutomation.init : ChromeAutomation :=
  { playwright := false, browser := false, context := false, page := false,
    is_connected := false }

/-- Page metadata returned by `get_page_info` on success. -/
structure PageInfo where
  url : String
  title : String
  width : Nat
  height : Nat
  timestamp : String
deriving DecidableEq

/-- Behaviour of the underlying Playwright page for one session: which
calls raise, and what the query calls observe. -/
structure PageEnv where
  gotoRaises : Bool
  waitSelRaises : Bool
  fillRaises : Bool
  pressRaises : Bool
  waitLoadRaises : Bool
  evaluateRaises : Bool
  clickRaises : Bool
  queryRaises : Bool
  queryText : Option String
  infoRaises : Bool
  info : PageInfo
  screenshotRaises : Bool
  linksRaises : Bool
  links : List (String × String)

/-- `navigate_to_url`: guarded by `is_connected` and `page`; a raising
`page.goto` is caught and reported as `False`. -/
def ChromeAutomation.navigate_to_url (pe : PageEnv) (st : ChromeAutomation)
    (_url : String) (_timeout : Nat) : Bool :=
  if !st.is_connected || !st.page then false
  else if pe.gotoRaises then false
  else true

/-- `perform_search`: guarded by `page`; waits for the search box, fills
it, presses Enter and waits for the load state, any raise being caught
and reported as `False`. -/
def ChromeAutomation.perform_search (pe : PageEnv) (st : ChromeAutomation)
    (_query : String) (_selector : String) : Bool :=
  if !st.page then false
  else if pe.waitSelRaises then false
  else if pe.fillRaises then false
  else if pe.pressRaises then false
  else if pe.waitLoadRaises then false
  else true

/-- The scroll offsets of `scroll_page` (`scroll_map.get(direction, (0, pixels))`). -/
def scroll_map (direction : String) (pixels : Int) : Int × Int :=
  if direction = "down" then (0, pixels)
  else if direction = "up" then (0, -pixels)
  else if direction = "left" then (-pixels, 0)
  else if direction = "right" then (pixels, 0)
  else (0, pixels)

/-- `scroll_page`: guarded by `page`; evaluates a `scrollBy` script, any
raise being caught and reported as `False`. -/
def ChromeAutomation.scroll_page (pe : PageEnv) (st : ChromeAutomation)
    (direction : String) (pixels : Int) : Bool :=
  if !st.page then false
  else
    let _offsets := scroll_map direction pixels
    if pe.evaluateRaises then false else true

/-- `click_element`: guarded by `page`; waits for the selector and
clicks, any raise being caught and reported as `False`. -/
def ChromeAutomation.click_element (pe : PageEnv) (st : ChromeAutomation)
    (_selector : String) (_timeout : Nat) : Bool :=
  if !st.page then false
  else if pe.waitSelRaises then false
  else if pe.clickRaises then false
  else true

/-- `get_element_text`: guarded by `page`; returns the text content of
the first matching element, `None` when absent or on a raise. -/
def ChromeAutomation.get_element_text (pe : PageEnv) (st : ChromeAutomation)
    (_selector : String) : Option String :=
  if !st.page then none
  else if pe.queryRaises then none
  else pe.queryText

/-- `get_page_info`: guarded by `page`; returns the url/title/viewport
dict, and the empty dict (modelled as `none`) on a raise. -/
def ChromeAutomation.get_page_info (pe : PageEnv) (st : ChromeAutomation) :
    Option PageInfo :=
  if !st.page then none
  else if pe.infoRaises then none
  else some pe.info

/-- `take_screenshot`: guarded by `page`; writes the screenshot file and
returns its path, `None` on a raise (the directory-join bookkeeping of
the Python body is collapsed into the returned path). -/
def ChromeAutomation.take_screenshot (pe : PageEnv) (st : ChromeAutomation)
    (filename : String) : Option String :=
  if !st.page then none
  else if pe.screenshotRaises then none
  else some filename

/-- `wait_for_selector`: guarded by `page`; `False` on a raise (timeout). -/
def ChromeAutomation.wait_for_selector (pe : PageEnv) (st : ChromeAutomation)
    (_selector : String) (_timeout : Nat) : Bool :=
  if !st.page then false
  else if pe.waitSelRaises then false
  else true

/-- `get_all_links`: guarded by `page`; returns stripped text and href of
each anchor, and the empty list on a raise. -/
def ChromeAutomation.get_all_links (pe : PageEnv) (st : ChromeAutomation) :
    List (String × String) :=
  if !st.page then []
  else if pe.linksRaises then []
  else pe.links

/-! ### `close()` -/

/-- The release calls attempted by `close()`, in source order. -/
inductive CloseEvent where
  | pageClose : CloseEvent
  | contextClose : CloseEvent
  | browserClose : CloseEvent
  | playwrightStop : CloseEvent
deriving DecidableEq, Fintype

/-- Which underlying release calls raise during `close()`. -/
structure CloseEnv where
  pageCloseRaises : Bool
  contextCloseRaises : Bool
  browserCloseRaises : Bool
  playwrightStopRaises : Bool
deriving DecidableEq, Fintype

/-- The all-succeeding release environment. -/
def CloseEnv.ok : CloseEnv :=
  { pageCloseRaises := false, contextCloseRaises := false,
    browserCloseRaises := false, playwrightStopRaises := false }

/-- Intermediate state of the single `try` block of `close()`: once an
exception has been raised, the remaining statements of the block are
skipped (the catch-all handler only logs). -/
structure CloseStage where
  st : ChromeAutomation
  tr : List CloseEvent
  raised : Bool

/-- One `if <handle>: <handle>.close(); <handle> = None` statement of the
`try` block: skipped after a raise, records the attempted call, and nulls
the handle only when the call returned (the exception fires before the
assignment). -/
def closeStep (present : ChromeAutomation → Bool) (raises : Bool) (ev : CloseEvent)
    (clear : ChromeAutomation → ChromeAutomation) (c : CloseStage) : CloseStage :=
  if c.raised then c
  else if present c.st then
    if raises then { st := c.st, tr := c.tr ++ [ev], raised := true }
    else { st := clear c.st, tr := c.tr ++ [ev], raised := false }
  else c

/-- `ChromeAutomation.close`: release page, context, browser connection
and the Playwright runtime handle in that order, then clear
`is_connected`; the whole sequence sits in one `try` whose catch-all
handler only logs, so `close` always returns (second component: the
release calls actually attempted). -/
def ChromeAutomation.close (env : CloseEnv) (st : ChromeAutomation) :
    ChromeAutomation × List CloseEvent :=
  let c0 : CloseStage := { st := st, tr := [], raised := false }
  let c1 := closeStep (fun s => s.page) env.pageCloseRaises CloseEvent.pageClose
    (fun s => { s with page := false }) c0
  let c2 := closeStep (fun s => s.context) env.contextCloseRaises CloseEvent.contextClose
    (fun s => { s with context := false }) c1
  let c3 := closeStep (fun s => s.browser) env.browserCloseRaises CloseEvent.browserClose
    (fun s => { s with browser := false }) c2
  let c4 := closeStep (fun s => s.playwright) env.playwrightStopRaises CloseEvent.playwrightStop
    (fun s => { s with playwright := false }) c3
  let c5 := if c4.raised then c4 else { c4 with st := { c4.st with is_connected := false } }
  (c5.st, c5.tr)

/-- `connect_to_chrome`: bail out when Playwright is missing; otherwise
tear down any previous session with `close()`, then either build a fully
connected session or, when the CDP connection fails, close the partially
built session (Playwright already started) and report `False`. -/
def ChromeAutomation.connect_to_chrome (hasPw : Bool) (cenv : CloseEnv) (ok : Bool)
    (st : ChromeAutomation) : ChromeAutomation × Bool :=
  if !hasPw then (st, false)
  else
    let st1 := (ChromeAutomation.close cenv st).1
    if ok then
      ({ playwright := true, browser := true, context := true, page := true,
         is_connected := true }, true)
    else
      ((ChromeAutomation.close cenv { st1 with playwright := true }).1, false)

/-- A fixed Playwright behaviour in which no library call raises. -/
def PageEnv.ok : PageEnv :=
  { gotoRaises := false, waitSelRaises := false, fillRaises := false,
    pressRaises := false, waitLoadRaises := false, evaluateRaises := false,
    clickRaises := false, queryRaises := false, queryText := some "text",
    infoRaises := false,
    info := { url := "https://www.baidu.com/s", title := "search results",
              width := 1920, height := 1080, timestamp := "t" },
    screenshotRaises := false, linksRaises := false, links := [] }

/-- C5: with no active page, every driver operation returns its
documented no-op failure value — `False` for `navigate_to_url`,
`perform_search`, `scroll_page`, `click_element` and `wait_for_selector`,
`None` for `get_element_text` and the empty dict for `get_page_info`,
the empty list for `get_all_links` — whatever the underlying library
would have done; each operation is total (its catch-all handler makes it
return rather than raise). -/
theorem driver_noop_without_page (pe : PageEnv) (st : ChromeAutomation)
    (h : st.page = false) (url q sel dir : String) (px : Int) (t : Nat) :
    ChromeAutomation.navigate_to_url pe st url t = false
    ∧ ChromeAutomation.perform_search pe st q sel = false
    ∧ ChromeAutomation.scroll_page pe st dir px = false
    ∧ ChromeAutomation.click_element pe st sel t = false
    ∧ ChromeAutomation.get_element_text pe st sel = none
    ∧ ChromeAutomation.get_page_info pe st = none
    ∧ ChromeAutomation.get_all_links pe st = []
    ∧ ChromeAutomation.wait_for_selector pe st sel t = false := by
  refine ⟨?_, ?_, ?_, ?_, ?_, ?_, ?_, ?_⟩ <;>
    simp [ChromeAutomation.navigate_to_url, ChromeAutomation.perform_search,
      ChromeAutomation.scroll_page, ChromeAutomation.click_element,
      ChromeAutomation.get_element_text, ChromeAutomation.get_page_info,
      ChromeAutomation.get_all_links, ChromeAutomation.wait_for_selector, h]

/-- Witness for `driver_noop_without_page` on a freshly constructed,
never-connected driver. -/
theorem driver_noop_without_page_witness :
    ChromeAutomation.init.page = false
    ∧ (ChromeAutomation.navigate_to_url PageEnv.ok ChromeAutomation.init "https://www.baidu.com" 30 = false
      ∧ ChromeAutomation.perform_search PageEnv.ok ChromeAutomation.init "query" "input[name=wd]" = false
      ∧ ChromeAutomation.scroll_page PageEnv.ok ChromeAutomation.init "down" 500 = false
      ∧ ChromeAutomation.click_element PageEnv.ok ChromeAutomation.init "div.result" 5 = false
      ∧ ChromeAutomation.get_element_text PageEnv.ok ChromeAutomation.init "div.result" = none
      ∧ ChromeAutomation.get_page_info PageEnv.ok ChromeAutomation.init = none
      ∧ ChromeAutomation.get_all_links PageEnv.ok ChromeAutomation.init = []
      ∧ ChromeAutomation.wait_for_selector PageEnv.ok ChromeAutomation.init "div.result" 10 = false) :=
  ⟨rfl, driver_noop_without_page PageEnv.ok ChromeAutomation.init rfl
    "https://www.baidu.com" "query" "div.result" "down" 500 30⟩

/-- Counterexample to C6 as stated: when releasing the page raises, the
swallowed error aborts the rest of the `try` block, so the browser
connection and the Playwright handle are NOT released and the connected
flag stays `true` — `close()` does not release all four handles
"swallowing any error". -/
theorem close_not_all_released_on_error :
    (ChromeAutomation.close
        { pageCloseRaises := true, contextCloseRaises := false,
          browserCloseRaises := false, playwrightStopRaises := false }
        { playwright := true, browser := true, context := true, page := true,
          is_connected := true }).1.browser = true
    ∧ (ChromeAutomation.close
        { pageCloseRaises := true, contextCloseRaises := false,
          browserCloseRaises := false, playwrightStopRaises := false }
        { playwright := true, browser := true, context := true, page := true,
          is_connected := true }).1.is_connected = true
    ∧ (ChromeAutomation.close
        { pageCloseRaises := true, contextCloseRaises := false,
          browserCloseRaises := false, playwrightStopRaises := false }
        { playwright := true, browser := true, context := true, page := true,
          is_connected := true }).2 = [CloseEvent.pageClose] := by decide

/-- C6 amended: `close()` always returns (every error of a release call
is swallowed by the catch-all handler, which is the first conjunct read
off the total embedding); when no release call raises it releases the
present handles in the order page, context, browser connection,
Playwright runtime, leaving every handle null and the connected flag
false; but an error swallowed during one release skips the remaining
releases (see the counterexample).  Called on a never-connected driver it
completes without error, attempts no release, and leaves every handle
null and the connected flag false, for every library behaviour. -/
theorem close_spec_amended :
    (∀ st : ChromeAutomation,
      ChromeAutomation.close CloseEnv.ok st =
        (ChromeAutomation.init,
          (if st.page then [CloseEvent.pageClose] else []) ++
          (if st.context then [CloseEvent.contextClose] else []) ++
          (if st.browser then [CloseEvent.browserClose] else []) ++
          (if st.playwright then [CloseEvent.playwrightStop] else [])))
    ∧ (∀ env : CloseEnv,
        ChromeAutomation.close env ChromeAutomation.init = (ChromeAutomation.init, [])) := by
  decide

/-! ## The task sequencer (`browser_automation_task.py`)

`BrowserAutomationTask.run` and its helpers are embedded in a small
state-plus-exception monad `PyM`: the state carries the emitted Qt
signals (as an event trace), the `chrome_automation` attribute, the
collected `task_results` and the `is_running` flag; the `Except` layer
carries a propagating Python exception.  `try/except` becomes `pyTry`,
and the `finally` of `run` (which only clears `is_running`) becomes
`pyFinallyState`. -/

/-- One observable signal emission or filesystem effect of a run. -/
inductive Event where
  | progress : Nat → Event
  | log : String → Event
  | finished : Bool → String → Event
  | report : Nat → Nat → Nat → String → Event
deriving DecidableEq

/-- Is this the `task_finished` signal? -/
def Event.isFinished : Event → Bool
  | Event.finished _ _ => true
  | _ => false

/-- Is this the writing of the report file? -/
def Event.isReport : Event → Bool
  | Event.report _ _ _ _ => true
  | _ => false

/-- The per-port result dict built by `perform_automation_tasks`.
`page_info = none` models the `page_info` key being absent (the per-port
`except` path); `some info` models the key set to `get_page_info`'s
return value. -/
structure ResultRecord where
  port : Nat
  start_time : String
  status : String
  actions : List (String × String × String)
  screenshots : List String
  error : Option String
  page_info : Option (Option PageInfo)
  end_time : String
deriving DecidableEq

/-- The mutable attributes of a `BrowserAutomationTask`, plus the trace
of emitted events. -/
structure TaskState where
  events : List Event
  chrome : Option ChromeAutomation
  results : List ResultRecord
  is_running : Bool
deriving DecidableEq

/-- Python statements as state transformers that may raise. -/
def PyM (α : Type) : Type := TaskState → Except String α × TaskState

/-- Sequencing: a raised exception skips the continuation. -/
def PyM.bind (x : PyM α) (f : α → PyM β) : PyM β := fun s =>
  match x s with
  | (Except.ok a, s1) => f a s1
  | (Except.error e, s1) => (Except.error e, s1)

instance : Monad PyM where
  pure a := fun s => (Except.ok a, s)
  bind := PyM.bind

/-- Read `self`. -/
def pyGet : PyM TaskState := fun s => (Except.ok s, s)

/-- Mutate `self`. -/
def pyModify (f : TaskState → TaskState) : PyM Unit := fun s => (Except.ok (), f s)

/-- `raise e`. -/
def pyThrow (e : String) : PyM α := fun s => (Except.error e, s)

/-- `try: body except Exception as e: handler(e)`. -/
def pyTry (body : PyM α) (handler : String → PyM α) : PyM α := fun s =>
  match body s with
  | (Except.ok a, s1) => (Except.ok a, s1)
  | (Except.error e, s1) => handler e s1

/-- `try: body finally: <state-only statement>` (the `finally` of `run`
only assigns `is_running`, which cannot raise). -/
def pyFinallyState (body : PyM α) (fin : TaskState → TaskState) : PyM α := fun s =>
  let r := body s
  (r.1, fin r.2)

/-- Append one event to the trace. -/
def emitEvent (ev : Event) : PyM Unit :=
  pyModify fun s => { s with events := s.events ++ [ev] }

/-- `self.log_message.emit(msg)` with the single positional argument the
signal declares: succeeds and records the message. -/
def emitLog (msg : String) : PyM Unit := emitEvent (Event.log msg)

/-- `self.progress_updated.emit(n)`. -/
def emitProgress (n : Nat) : PyM Unit := emitEvent (Event.progress n)

/-- `self.task_finished.emit(success, message)` (two positional
arguments, matching `pyqtSignal(bool, str)`). -/
def emitFinished (success : Bool) (msg : String) : PyM Unit :=
  emitEvent (Event.finished success msg)

/-- `self.log_message.emit(msg, level=...)`: the bound signal's `emit` is
a C function registered `METH_VARARGS`, so the keyword argument raises
`TypeError` and nothing is emitted (the signal also has a single `str`
parameter, so the call could never succeed). -/
def emitLogKw (_msg _level : String) : PyM Unit :=
  pyThrow "TypeError: emit() takes no keyword arguments"

/-- Unfolding lemma for `>>=` on `PyM`. -/
theorem pyBind_apply (x : PyM α) (f : α → PyM β) (s : TaskState) :
    (x >>= f) s = match x s with
      | (Except.ok a, s1) => f a s1
      | (Except.error e, s1) => (Except.error e, s1) := rfl

/-- Unfolding lemma for `pure` on `PyM`. -/
theorem pyPure_apply (a : α) (s : TaskState) : (pure a : PyM α) s = (Except.ok a, s) := rfl

/-- The external world of one sequencer run: the socket table (`none`
means `psutil.net_connections` itself raises), Playwright availability,
which ports accept a CDP connection, the page behaviour after a
successful connection, the release-call behaviour, whether the two
filesystem touch points raise, and the clock (taken constant — no
statement below depends on timestamps). -/
structure World where
  conns : Option (List Conn)
  hasPlaywright : Bool
  connectOk : Nat → Bool
  page : PageEnv
  closeEnv : CloseEnv
  screenshotFsRaises : Bool
  reportFsRaises : Bool
  time : String

/-- The `TypeError` text raised by a keyword-argument `emit` call. -/
def kwErr : String := "TypeError: emit() takes no keyword arguments"

/-- Lift a pure effect description (events that happened before the
result or the raise) into `PyM`. -/
def liftEv (r : List Event × Except String α) : PyM α := fun s =>
  (r.2, { s with events := s.events ++ r.1 })

/-- `BrowserAutomationTask.detect_chrome_instances`: on a working socket
scan, the pure computation plus a log line; when the scan raises, the
`except` handler's keyword-argument `emit` raises `TypeError`, so the
`return [9222]` fallback line is never reached. -/
def taskDetect (w : World) : PyM (List Nat) :=
  match w.conns with
  | some conns => do
      let ports := detect_chrome_instances_pure conns
      emitLog ("detected chrome instances: " ++ toString ports.length)
      pure ports
  | none => do
      emitLogKw "detect chrome instances failed" "warning"
      pure [9222]

/-- `self.chrome_automation.connect_to_chrome(port)` inside `run`: reads
the attribute (raising `AttributeError` if it were `None`), updates the
driver state and returns the success flag. -/
def taskConnect (w : World) (port : Nat) : PyM Bool := do
  let s ← pyGet
  match s.chrome with
  | some ca =>
      let cr := ChromeAutomation.connect_to_chrome w.hasPlaywright w.closeEnv
        (w.connectOk port) ca
      pyModify fun s1 => { s1 with chrome := some cr.1 }
      pure cr.2
  | none => pyThrow "AttributeError"

/-- `BrowserAutomationTask.take_screenshot` (the task-level wrapper):
any filesystem error in the `try` lands in the handler whose
keyword-argument `emit` raises `TypeError`; a falsy driver result takes
the `else` branch whose keyword-argument `emit` likewise raises
`TypeError` (so the `return ""` line is never reached); on success the
path is logged and returned.  A `None` driver attribute would raise
`AttributeError` in the `try`, again ending in the raising handler. -/
def taskTakeScreenshotCore (w : World) (port : Nat) (action : String)
    (chrome : Option ChromeAutomation) : List Event × Except String String :=
  if w.screenshotFsRaises then ([], Except.error kwErr)
  else
    let path := "screenshots/screenshot_" ++ toString port ++ "_" ++ action ++ "_" ++
      w.time ++ ".png"
    match chrome with
    | none => ([], Except.error kwErr)
    | some ca =>
      match ChromeAutomation.take_screenshot w.page ca path with
      | some p => ([Event.log ("screenshot saved: " ++ p)], Except.ok p)
      | none => ([], Except.error kwErr)

/-- `BrowserAutomationTask.perform_automation_tasks`: the fixed action
sequence.  The driver calls are total (their own catch-alls), so the only
exception sources in the `try` are the screenshot wrapper and a `None`
driver attribute; in both cases the per-port `except` sets
`status = failed` and `error` on the local dict but then its
keyword-argument `emit` raises `TypeError`, so the record is lost and the
exception propagates — embedded as the error outcome. -/
def performTasksCore (w : World) (port : Nat) (chrome : Option ChromeAutomation) :
    List Event × Except String ResultRecord :=
  let ev0 := [Event.log ("baidu search task on port " ++ toString port)]
  match chrome with
  | none => (ev0, Except.error kwErr)
  | some ca =>
    let _nav := ChromeAutomation.navigate_to_url w.page ca "https://www.baidu.com" 30
    let _search := ChromeAutomation.perform_search w.page ca
      "browser automation test" "input[name=wd]"
    let shotRes := taskTakeScreenshotCore w port "baidu_search" (some ca)
    match shotRes.2 with
    | Except.error e => (ev0 ++ shotRes.1, Except.error e)
    | Except.ok shot =>
      let evs := ev0 ++ shotRes.1 ++
        [Event.log ("scrolling page on port " ++ toString port)]
      let _scroll := ChromeAutomation.scroll_page w.page ca "down" 500
      let info := ChromeAutomation.get_page_info w.page ca
      (evs ++ [Event.log ("automation tasks done on port " ++ toString port)],
        Except.ok
          { port := port, start_time := w.time, status := "success",
            actions := [("baidu_search", "browser automation test", shot)],
            screenshots := [shot], error := none, page_info := some info,
            end_time := w.time })

/-- `BrowserAutomationTask.generate_report`: a filesystem error lands in
the handler whose keyword-argument `emit` raises `TypeError`; otherwise
the summary (total / successful / failed counts over `task_results`) is
written and logged. -/
def generateReportCore (w : World) (results : List ResultRecord) :
    List Event × Except String String :=
  if w.reportFsRaises then ([], Except.error kwErr)
  else
    let path := "reports/automation_report_" ++ w.time ++ ".json"
    ([Event.report results.length
        (results.filter fun r => r.status == "success").length
        (results.filter fun r => r.status == "failed").length path,
      Event.log ("report saved: " ++ path)], Except.ok path)

/-- `BrowserAutomationTask.cleanup`: close the driver if present (its own
catch-all makes `close` total), null the attribute, log; nothing in the
body can raise, so the handler is dead and `cleanup` always returns. -/
def cleanupCore (w : World) (chrome : Option ChromeAutomation) :
    List Event × Option ChromeAutomation :=
  match chrome with
  | some ca =>
      let _closed := ChromeAutomation.close w.closeEnv ca
      ([Event.log "cleanup done"], none)
  | none => ([Event.log "cleanup done"], none)

/-- `self.cleanup()` as a `PyM` action. -/
def taskCleanup (w : World) : PyM Unit := do
  let s ← pyGet
  let c := cleanupCore w s.chrome
  pyModify fun s1 => { s1 with chrome := c.2, events := s1.events ++ c.1 }

/-- One iteration of the port loop of `run` (`i` is the `enumerate`
index, `n` the number of candidate ports): connect; on success run the
action sequence, append the record and emit progress; on connect failure
the warning uses a keyword-argument `emit`, raising `TypeError`, which
the per-port `except` catches — but its own keyword-argument `emit`
raises `TypeError` again, so the `continue` is never reached and the
exception propagates out of the loop. -/
def portStep (w : World) (n i port : Nat) : PyM Unit := do
  emitLog ("processing chrome instance " ++ toString port)
  pyTry
    (do
      let ok ← taskConnect w port
      if ok then do
        emitLog ("connected to chrome instance " ++ toString port)
        let s ← pyGet
        let r ← liftEv (performTasksCore w port s.chrome)
        pyModify fun s1 => { s1 with results := s1.results ++ [r] }
        emitProgress (20 + (i + 1) * 60 / n)
      else
        emitLogKw ("cannot connect to chrome instance " ++ toString port) "warning")
    (fun e => emitLogKw ("error processing chrome instance: " ++ e) "error")

/-- The `for i, port in enumerate(chrome_instances)` loop of `run`. -/
def portLoop (w : World) (n : Nat) : List (Nat × Nat) → PyM Unit
  | [] => pure ()
  | (i, port) :: rest => do
      portStep w n i port
      portLoop w n rest

/-- The completion message of `run` (never empty). -/
def finishMsg (n : Nat) : String :=
  "task finished, processed " ++ toString n ++ " chrome instances"

/-- Steps 1 and 2 of `run`: mark running, detect candidate ports (with
the dead `if not chrome_instances` fallback), create the driver object. -/
def runPrologue (w : World) : PyM (List Nat) := do
  pyModify fun s => { s with is_running := true }
  emitLog "starting browser automation task"
  emitProgress 10
  emitLog "detecting chrome instances"
  let insts0 ← taskDetect w
  let insts ←
    if insts0.isEmpty then do
      emitLog "no chrome instance detected, starting a new one"
      pure [9222]
    else pure insts0
  emitProgress 20
  pyModify fun s => { s with chrome := some ChromeAutomation.init }
  pure insts

/-- Steps 4 and 5 of `run`: write the report, clean up, and emit the
completion signal, whose success flag is `len(self.task_results) > 0`. -/
def runEpilogue (w : World) : PyM Unit := do
  emitProgress 90
  emitLog "generating task report"
  let s ← pyGet
  let _path ← liftEv (generateReportCore w s.results)
  emitProgress 100
  taskCleanup w
  let s2 ← pyGet
  emitFinished (decide (0 < s2.results.length)) (finishMsg s2.results.length)
  emitLog (finishMsg s2.results.length)

/-- The body of the top-level `try` of `BrowserAutomationTask.run`:
prologue, port loop, epilogue. -/
def taskRunBody (w : World) : PyM Unit := do
  let insts ← runPrologue w
  portLoop w insts.length insts.enum
  runEpilogue w

/-- `BrowserAutomationTask.run`: the body under the top-level
`try/except/finally`.  The `except` logs with a keyword-argument `emit`,
which raises `TypeError` as its first statement, so the failure
notification and the cleanup call behind it are never reached; the
`finally` clears `is_running`. -/
def taskRun (w : World) : PyM Unit :=
  pyFinallyState
    (pyTry (taskRunBody w)
      (fun e => do
        emitLogKw ("browser automation task failed: " ++ e) "error"
        emitFinished false ("browser automation task failed: " ++ e)
        taskCleanup w))
    (fun s => { s with is_running := false })

/-- The attribute state set by `BrowserAutomationTask.__init__`. -/
def initState : TaskState :=
  { events := [], chrome := none, results := [], is_running := false }

/-- One complete run from a fresh task object. -/
def runTask (w : World) : Except String Unit × TaskState := taskRun w initState

deriving instance DecidableEq for Except

theorem portStep_ok_results (w : World) (n i port : Nat) (s : TaskState)
    (h : ((portStep w n i port) s).1 = Except.ok ()) :
    ((portStep w n i port) s).2.results.length = s.results.length + 1 := by
  simp only [portStep, pyBind_apply, pyPure_apply, emitLog, emitEvent, emitProgress,
    emitLogKw, pyModify, pyGet, pyThrow, pyTry, liftEv, taskConnect] at h ⊢
  cases hc : s.chrome with
  | none => simp [hc, pyThrow] at h
  | some ca =>
      simp only [hc, pyBind_apply, pyPure_apply, pyModify, pyThrow] at h ⊢
      cases hok : (ChromeAutomation.connect_to_chrome w.hasPlaywright w.closeEnv
          (w.connectOk port) ca).2 with
      | false => simp [hok, pyThrow] at h
      | true =>
          simp only [hok, if_true, pyBind_apply, pyPure_apply, emitLog, emitEvent, emitProgress,
            emitLogKw, pyModify, pyGet, pyThrow, liftEv] at h ⊢
          cases hr : (performTasksCore w port (some (ChromeAutomation.connect_to_chrome
              w.hasPlaywright w.closeEnv (w.connectOk port) ca).1)).2 with
          | error e => simp [hr] at h
          | ok r =>
              simp only [hr, pyBind_apply, pyPure_apply, pyModify, emitEvent] at h ⊢
              simp [List.length_append]

theorem portLoop_ok_results (w : World) (n : Nat) (l : List (Nat × Nat)) :
    ∀ s : TaskState, ((portLoop w n l) s).1 = Except.ok () →
      ((portLoop w n l) s).2.results.length = s.results.length + l.length := by
  induction l with
  | nil => intro s _; simp [portLoop, pyPure_apply]
  | cons p rest ih =>
      intro s h
      obtain ⟨i, port⟩ := p
      simp only [portLoop, pyBind_apply] at h ⊢
      cases hstep : (portStep w n i port) s with
      | mk r1 s1 =>
          cases r1 with
          | error e => rw [hstep] at h; simp at h
          | ok a =>
              cases a
              rw [hstep] at h
              simp only [] at h
              have hs1 : ((portStep w n i port) s).1 = Except.ok () := by rw [hstep]
              have hlen := portStep_ok_results w n i port s hs1
              rw [hstep] at hlen
              simp only [List.length_cons]
              rw [ih s1 h]
              simp only [] at hlen
              omega

theorem runPrologue_conns_none (w : World) (hc : w.conns = none) (s : TaskState) :
    ((runPrologue w) s).1 = Except.error kwErr := by
  simp [runPrologue, taskDetect, hc, pyBind_apply, pyPure_apply, emitLog, emitEvent,
    emitProgress, emitLogKw, pyModify, pyThrow, kwErr]

theorem runPrologue_conns_some (w : World) (cs : List Conn) (hc : w.conns = some cs)
    (s : TaskState) :
    ∃ (insts : List Nat) (evs : List Event), insts ≠ [] ∧
      (runPrologue w) s =
        (Except.ok insts,
          { events := s.events ++ evs, chrome := some ChromeAutomation.init,
            results := s.results, is_running := true }) := by
  by_cases hE : (detect_chrome_instances_pure cs).isEmpty
  · refine ⟨[9222], ?_, by simp, ?_⟩
    · exact [Event.log "starting browser automation task", Event.progress 10,
        Event.log "detecting chrome instances",
        Event.log ("detected chrome instances: " ++
          toString (detect_chrome_instances_pure cs).length),
        Event.log "no chrome instance detected, starting a new one", Event.progress 20]
    · have hE2 : detect_chrome_instances_pure cs = [] := by
        simpa [List.isEmpty_iff] using hE
      simp [runPrologue, taskDetect, hc, hE2, pyBind_apply, pyPure_apply, emitLog, emitEvent,
        emitProgress, emitLogKw, pyModify, pyThrow]
  · refine ⟨detect_chrome_instances_pure cs, ?_, by simpa [List.isEmpty_iff] using hE, ?_⟩
    · exact [Event.log "starting browser automation task", Event.progress 10,
        Event.log "detecting chrome instances",
        Event.log ("detected chrome instances: " ++
          toString (detect_chrome_instances_pure cs).length),
        Event.progress 20]
    · have hE2 : ¬detect_chrome_instances_pure cs = [] := by
        simpa [List.isEmpty_iff] using hE
      simp [runPrologue, taskDetect, hc, hE2, pyBind_apply, pyPure_apply, emitLog, emitEvent,
        emitProgress, emitLogKw, pyModify, pyThrow]

theorem cleanupCore_eq (w : World) (c : Option ChromeAutomation) :
    cleanupCore w c = ([Event.log "cleanup done"], none) := by
  cases c <;> rfl

def epilogueEvents (w : World) (res : List ResultRecord) : List Event :=
  [Event.progress 90, Event.log "generating task report",
   Event.report res.length
     (res.filter fun r => r.status == "success").length
     (res.filter fun r => r.status == "failed").length
     ("reports/automation_report_" ++ w.time ++ ".json"),
   Event.log ("report saved: " ++ ("reports/automation_report_" ++ w.time ++ ".json")),
   Event.progress 100, Event.log "cleanup done",
   Event.finished (decide (0 < res.length)) (finishMsg res.length),
   Event.log (finishMsg res.length)]

theorem runEpilogue_report_err (w : World) (hr : w.reportFsRaises = true) (s : TaskState) :
    ((runEpilogue w) s).1 = Except.error kwErr := by
  simp [runEpilogue, generateReportCore, hr, pyBind_apply, pyPure_apply, emitLog, emitEvent,
    emitProgress, emitFinished, emitLogKw, pyModify, pyGet, pyThrow, liftEv, taskCleanup]

theorem runEpilogue_report_ok (w : World) (hr : w.reportFsRaises = false) (s : TaskState) :
    (runEpilogue w) s =
      (Except.ok (),
        { events := s.events ++ epilogueEvents w s.results,
          chrome := none, results := s.results, is_running := s.is_running }) := by
  simp [runEpilogue, generateReportCore, hr, cleanupCore_eq, epilogueEvents, pyBind_apply,
    pyPure_apply, emitLog, emitEvent, emitProgress, emitFinished, emitLogKw, pyModify,
    pyGet, pyThrow, liftEv, taskCleanup]

theorem finished_success_iff_results (w : World)
    (h : (runTask w).1 = Except.ok ()) :
    0 < (runTask w).2.results.length
    ∧ Event.finished true (finishMsg (runTask w).2.results.length) ∈ (runTask w).2.events := by
  unfold runTask taskRun pyFinallyState at h ⊢
  simp only [pyTry] at h ⊢
  cases hb : (taskRunBody w) initState with
  | mk rb sb =>
      cases rb with
      | error e =>
          simp only [hb, pyBind_apply, emitLogKw, pyThrow] at h
          simp at h
      | ok u =>
          simp only [hb]
          cases hc : w.conns with
          | none =>
              have hp := runPrologue_conns_none w hc initState
              simp only [taskRunBody, pyBind_apply] at hb
              cases hpro : (runPrologue w) initState with
              | mk rp sp =>
                  rw [hpro] at hp
                  cases rp with
                  | error e2 => rw [hpro] at hb; simp at hb
                  | ok v => simp at hp
          | some cs =>
              obtain ⟨insts, evs, hne, heq⟩ := runPrologue_conns_some w cs hc initState
              simp only [taskRunBody, pyBind_apply, heq] at hb
              cases hloop : (portLoop w insts.length insts.enum)
                  { events := initState.events ++ evs, chrome := some ChromeAutomation.init,
                    results := initState.results, is_running := true } with
              | mk rl sl =>
                  rw [hloop] at hb
                  cases rl with
                  | error e2 => simp at hb
                  | ok v =>
                      have hlen := portLoop_ok_results w insts.length insts.enum _
                        (by rw [hloop])
                      rw [hloop] at hlen
                      simp only [initState, List.length_nil, Nat.zero_add,
                        List.enum_length] at hlen
                      have hpos : 0 < sl.results.length := by
                        rw [hlen]
                        exact List.length_pos.mpr hne
                      have hb2 : runEpilogue w sl = (Except.ok u, sb) := hb
                      cases hrf : w.reportFsRaises with
                      | true =>
                          have herr := runEpilogue_report_err w hrf sl
                          rw [hb2] at herr
                          simp at herr
                      | false =>
                          have hep := runEpilogue_report_ok w hrf sl
                          rw [hb2] at hep
                          have hsb : sb = { events := sl.events ++ epilogueEvents w sl.results,
                                            chrome := none, results := sl.results,
                                            is_running := sl.is_running } := by
                            have h2 := congrArg Prod.snd hep
                            simpa using h2
                          subst hsb
                          refine ⟨hpos, ?_⟩
                          have hdec : decide (0 < sl.results.length) = true :=
                            decide_eq_true hpos
                          simp [epilogueEvents, hdec, List.mem_append]

/-! ## Concrete worlds for the run-level claims -/

/-- No listening socket anywhere; the fallback connect to 9222 fails;
Playwright present; nothing else raises. -/
def worldNoPorts : World :=
  { conns := some [], hasPlaywright := true, connectOk := fun _ => false,
    page := PageEnv.ok, closeEnv := CloseEnv.ok, screenshotFsRaises := false,
    reportFsRaises := false, time := "20240101_000000" }

/-- A single listening debug socket at 9223 whose connect fails. -/
def worldOnePortDown : World :=
  { conns := some [⟨"LISTEN", 9223⟩], hasPlaywright := true, connectOk := fun _ => false,
    page := PageEnv.ok, closeEnv := CloseEnv.ok, screenshotFsRaises := false,
    reportFsRaises := false, time := "20240101_000000" }

/-- Listening debug sockets at 9222 and 9223; the connect to 9222 fails
while 9223 would succeed. -/
def worldTwoPorts : World :=
  { conns := some [⟨"LISTEN", 9222⟩, ⟨"LISTEN", 9223⟩], hasPlaywright := true,
    connectOk := fun p => p == 9223, page := PageEnv.ok, closeEnv := CloseEnv.ok,
    screenshotFsRaises := false, reportFsRaises := false, time := "20240101_000000" }

/-- A single listening debug socket at 9230 whose connect fails. -/
def worldNoConnect : World :=
  { conns := some [⟨"LISTEN", 9230⟩], hasPlaywright := true, connectOk := fun _ => false,
    page := PageEnv.ok, closeEnv := CloseEnv.ok, screenshotFsRaises := false,
    reportFsRaises := false, time := "20240101_000000" }

/-- Two connectable ports whose page behaviour has the given per-action
raise flags (navigation, selector wait, fill, key press, load wait,
scroll evaluation, page-info query); the screenshot and report paths
work. -/
def worldActionFlags (g ws f p wl ev pi : Bool) : World :=
  { conns := some [⟨"LISTEN", 9222⟩, ⟨"LISTEN", 9223⟩], hasPlaywright := true,
    connectOk := fun _ => true,
    page := { gotoRaises := g, waitSelRaises := ws, fillRaises := f, pressRaises := p,
              waitLoadRaises := wl, evaluateRaises := ev, clickRaises := false,
              queryRaises := false, queryText := some "text", infoRaises := pi,
              info := { url := "https://www.baidu.com/s", title := "results",
                        width := 1920, height := 1080, timestamp := "ts" },
              screenshotRaises := false, linksRaises := false, links := [] },
    closeEnv := CloseEnv.ok, screenshotFsRaises := false, reportFsRaises := false,
    time := "20240101_000000" }

/-- One connectable port on which the search selector is never found
(`wait_for_selector` inside `perform_search` raises, caught there). -/
def worldSelectorMissing : World := worldActionFlags false true false false false false false

/-- One connectable port with fully working page behaviour. -/
def worldHappy : World :=
  { conns := some [⟨"LISTEN", 9222⟩], hasPlaywright := true, connectOk := fun _ => true,
    page := PageEnv.ok, closeEnv := CloseEnv.ok, screenshotFsRaises := false,
    reportFsRaises := false, time := "20240101_000000" }

/-! ## Run-level claim theorems -/

/-- C1, evaluated at the failing input: with no listening debug port in
the scanned range and the fallback connect to 9222 failing, `run` does
NOT write a report, does NOT emit a finished notification, and does NOT
run cleanup (the driver attribute is still set): the connect-failure
warning `self.log_message.emit(msg, level="warning")` raises `TypeError`,
the per-port handler and the top-level handler raise the same `TypeError`
from their own keyword-argument `emit` calls, and the exception leaves
`run`. -/
theorem run_without_reachable_ports_crashes :
    (runTask worldNoPorts).1 = Except.error kwErr
    ∧ (runTask worldNoPorts).2.chrome = some ChromeAutomation.init
    ∧ (runTask worldNoPorts).2.events.all (fun ev => !ev.isFinished && !ev.isReport) = true := by
  decide

/-- C2, evaluated at a failing input: an unexpected error (here the
`TypeError` escaping the port loop) is indeed caught by the top-level
`except`, but that handler's first statement is itself a keyword-argument
`emit` and raises `TypeError`, so the overall-failure notification is
never emitted and cleanup never runs (the driver attribute is still
set). -/
theorem top_level_handler_raises_before_reporting :
    (runTask worldOnePortDown).1 = Except.error kwErr
    ∧ (runTask worldOnePortDown).2.chrome = some ChromeAutomation.init
    ∧ (runTask worldOnePortDown).2.events.all (fun ev => !ev.isFinished) = true := by
  decide

/-- C3, evaluated at the failing input: with candidate ports 9222 and
9223 where only 9223 would connect, the failed connect to 9222 raises
`TypeError` from the keyword-argument warning `emit`; the per-port
handler raises the same way, so port 9223 is never processed and the run
aborts with no result records. -/
theorem connect_failure_aborts_remaining_ports :
    (runTask worldTwoPorts).1 = Except.error kwErr
    ∧ Event.log "processing chrome instance 9222" ∈ (runTask worldTwoPorts).2.events
    ∧ Event.log "processing chrome instance 9223" ∉ (runTask worldTwoPorts).2.events
    ∧ (runTask worldTwoPorts).2.results = [] := by
  decide

/-- Counterexample to C4 as stated: on a connected port whose search
selector is never found, `perform_search` reports the per-action error as
`False` (first conjunct), yet the port's record keeps status `success`
with no error message, the remaining actions still run (the `page_info`
key is set), and the run completes — nothing is marked `failed` and
nothing is aborted. -/
theorem per_action_failure_keeps_success_status :
    ChromeAutomation.perform_search worldSelectorMissing.page
      { playwright := true, browser := true, context := true, page := true,
        is_connected := true } "browser automation test" "input[name=wd]" = false
    ∧ (runTask worldSelectorMissing).1 = Except.ok ()
    ∧ (runTask worldSelectorMissing).2.results.map ResultRecord.status = ["success", "success"]
    ∧ (runTask worldSelectorMissing).2.results.all
        (fun r => r.page_info.isSome && r.error.isNone) = true := by
  decide

/-- C4 amended: per-action errors during a port's action sequence
(navigation, selector wait, fill, key press, load wait, scroll
evaluation, page-info query — any combination) are swallowed inside the
driver operations and returned as failure values that the sequencer
ignores: the remaining actions still run, every port's record keeps
status `success` with no error, the sequencer continues with the next
port, and the run finishes with a completion notification. -/
theorem per_action_errors_swallowed :
    ∀ g ws f p wl ev pi : Bool,
    (runTask (worldActionFlags g ws f p wl ev pi)).1 = Except.ok ()
    ∧ (runTask (worldActionFlags g ws f p wl ev pi)).2.results.map ResultRecord.status =
        ["success", "success"]
    ∧ (runTask (worldActionFlags g ws f p wl ev pi)).2.results.all
        (fun r => r.page_info.isSome && r.error.isNone) = true
    ∧ (runTask (worldActionFlags g ws f p wl ev pi)).2.events.any Event.isFinished = true := by
  decide

/-- Counterexample to C10 as stated: a run in which no connect succeeds
does not report `success=false` — it emits no finished notification at
all, because the connect-failure warning raises `TypeError` and the
top-level handler crashes the same way before reaching
`task_finished.emit`. -/
theorem no_connect_run_emits_no_finished :
    (runTask worldNoConnect).1 = Except.error kwErr
    ∧ (runTask worldNoConnect).2.events.all (fun ev => !ev.isFinished) = true := by
  decide

/-- Witness for `finished_success_iff_results` at a world with one
reachable, fully working port. -/
theorem finished_success_iff_results_witness :
    (runTask worldHappy).1 = Except.ok ()
    ∧ (0 < (runTask worldHappy).2.results.length
      ∧ Event.finished true (finishMsg (runTask worldHappy).2.results.length) ∈
          (runTask worldHappy).2.events) :=
  ⟨by decide, finished_success_iff_results worldHappy (by decide)⟩
